import Mathlib

/-!
Shallow embedding of `src/app.py` (a Flask + flask_restful market-data API):
user registration and login (bcrypt + JWT), a protected latest-price endpoint
backed by an upserting price cache, a historical-data endpoint, and an
SMA-crossover recommendation endpoint.

External collaborators (the JWT HMAC, bcrypt's digest function and the
yfinance provider) are modelled as explicit function parameters; all
control flow, error branches, status codes and store updates come from the
source.
-/

namespace StockApp

/-! ## Token Service (jwt.encode / jwt.decode as used in app.py) -/

/-- Validity window of an issued token: `timedelta(hours=2)`, in seconds. -/
def tokenValiditySeconds : Nat := 7200

/-- A decoded JWT as used by the app: payload claims `username` and `exp`
plus the HMAC signature bytes over the payload. -/
structure Token where
  username : String
  exp : Nat
  sig : List Nat
deriving Repr, DecidableEq

/-- Outcome of `jwt.decode` in `StockMarketData.get`: success with the
payload's username, `jwt.ExpiredSignatureError`, or `jwt.InvalidTokenError`. -/
inductive ValidateResult where
  | Valid : String → ValidateResult
  | Expired : ValidateResult
  | Malformed : ValidateResult
deriving Repr, DecidableEq

/-- `jwt.encode({"username": u, "exp": now + timedelta(hours=2)}, SECRET_KEY, "HS256")`
from `Login.post` (app.py lines 93-97). `sign` abstracts HMAC-SHA256 keyed with
the app secret, applied to the payload claims. -/
def issue (sign : String → Nat → List Nat) (username : String) (now : Nat) : Token :=
  { username := username
    exp := now + tokenValiditySeconds
    sig := sign username (now + tokenValiditySeconds) }

/-- `jwt.decode(token, SECRET_KEY, ["HS256"])` (app.py line 111): the signature
is verified before any claim is trusted; an expired `exp` raises
`ExpiredSignatureError`; a bad signature raises `InvalidTokenError`. -/
def validate (sign : String → Nat → List Nat) (t : Token) (now : Nat) : ValidateResult :=
  if t.sig ≠ sign t.username t.exp then .Malformed
  else if t.exp < now then .Expired
  else .Valid t.username

/-! ## Password Hasher (bcrypt as used in app.py) -/

/-- A bcrypt digest: the salt is embedded alongside the digest bytes.
`f` (the bcrypt key-derivation core) is abstracted; it is supplied as a
parameter wherever hashes are produced or checked. -/
structure Hash where
  salt : Nat
  digest : Nat
deriving Repr, DecidableEq

/-- `bcrypt.hashpw(password, bcrypt.gensalt())` (app.py line 74): derives a
digest from the password and a fresh salt, embedding the salt. -/
def hashpw (f : String → Nat → Nat) (password : String) (salt : Nat) : Hash :=
  { salt := salt, digest := f password salt }

/-- `bcrypt.checkpw(password, stored)` (app.py line 90): re-derives the digest
with the stored hash's embedded salt and compares. -/
def checkpw (f : String → Nat → Nat) (password : String) (stored : Hash) : Bool :=
  f password stored.salt == stored.digest

/-! ## Credential Store (users_collection) -/

/-- One document of `users_collection`: `{"username": ..., "password": ...}`. -/
structure UserRecord where
  username : String
  password : Hash
deriving Repr, DecidableEq

/-- The JSON request body of `/register` and `/login`; a field is `none`
when the key is absent (subscripting then raises `KeyError`). -/
structure AuthBody where
  username : Option String
  password : Option String
deriving Repr, DecidableEq

/-- Text of the exception the handlers serialize on a missing body key:
`str(KeyError(k))` is the key wrapped in single quotes. -/
def keyErrorText (k : String) : String := "'" ++ k ++ "'"

/-- Response of `Register.post`. -/
inductive RegisterOut where
  | created
  | conflict
  | err (text : String)
deriving Repr, DecidableEq

/-- HTTP status attached to each `Register.post` branch (app.py lines 72, 76, 78). -/
def RegisterOut.status : RegisterOut → Nat
  | .created => 201
  | .conflict => 400
  | .err _ => 500

/-- Body message of each `Register.post` branch. -/
def RegisterOut.message : RegisterOut → String
  | .created => "User registered successfully"
  | .conflict => "User already exists"
  | .err t => t

/-- `Register.post` (app.py lines 64-78): read `username` and `password` from
the body (a missing key raises `KeyError`, caught as a 500), reject an
existing username with 400, else hash the password and insert the pair. -/
def Register.post (f : String → Nat → Nat) (salt : Nat) (body : AuthBody)
    (store : List UserRecord) : RegisterOut × List UserRecord :=
  match body.username with
  | none => (.err (keyErrorText "username"), store)
  | some u =>
    match body.password with
    | none => (.err (keyErrorText "password"), store)
    | some p =>
      if store.any fun r => r.username == u then
        (.conflict, store)
      else
        (.created, store ++ [{ username := u, password := hashpw f p salt }])

/-- Response of `Login.post`. -/
inductive LoginOut where
  | token (t : Token)
  | invalidCredentials
  | err (text : String)
deriving Repr, DecidableEq

/-- HTTP status attached to each `Login.post` branch (app.py lines 91, 98, 100). -/
def LoginOut.status : LoginOut → Nat
  | .token _ => 200
  | .invalidCredentials => 401
  | .err _ => 500

/-- Body message of each failing `Login.post` branch. -/
def LoginOut.message : LoginOut → String
  | .token _ => ""
  | .invalidCredentials => "Invalid credentials"
  | .err t => t

/-- `Login.post` (app.py lines 82-100): read the body (missing key → 500),
look the user up; if absent, or if `bcrypt.checkpw` fails, answer
`"Invalid credentials"` with 401 (one shared branch for both); else issue
a token expiring two hours from now. -/
def Login.post (f : String → Nat → Nat) (sign : String → Nat → List Nat)
    (body : AuthBody) (store : List UserRecord) (now : Nat) : LoginOut :=
  match body.username with
  | none => .err (keyErrorText "username")
  | some u =>
    match body.password with
    | none => .err (keyErrorText "password")
    | some p =>
      match store.find? fun r => r.username == u with
      | none => .invalidCredentials
      | some user =>
        if checkpw f p user.password then .token (issue sign u now)
        else .invalidCredentials

/-! ## Price Cache (fetch_stock_data and stocks_collection) -/

/-- One document of `stocks_collection`: the `data` dict built in
`fetch_stock_data` (app.py lines 50-54). -/
structure PriceRecord where
  symbol : String
  latest_price : ℚ
  timestamp : Nat
deriving Repr, DecidableEq

/-- Outcome of `yf.Ticker(symbol).history(period="1d")`: the `Close` column of
the returned frame (possibly empty), or a raised exception's text. -/
inductive ProviderResult where
  | ok (closes : List ℚ)
  | exn (msg : String)
deriving Repr, DecidableEq

/-- `stocks_collection.update_one({"symbol": s}, {"$set": data}, upsert=True)`
(app.py line 57): overwrite the first document matching the symbol, or insert
the record when none matches. -/
def upsert : List PriceRecord → PriceRecord → List PriceRecord
  | [], r => [r]
  | x :: xs, r => if x.symbol == r.symbol then r :: xs else x :: upsert xs r

/-- Return value of `fetch_stock_data`: the `data` dict on success, the
`({"message": "Stock data not found"}, 404)` pair on an empty frame, or the
`({"error": str(e)}, 500)` pair on an exception. -/
inductive FetchOut where
  | ok (r : PriceRecord)
  | notFound (msg : String)
  | err (msg : String)
deriving Repr, DecidableEq

/-- HTTP status carried by a failing `fetch_stock_data` return (app.py
lines 47, 60); a success carries no explicit status. -/
def FetchOut.errStatus : FetchOut → Option Nat
  | .ok _ => none
  | .notFound _ => some 404
  | .err _ => some 500

/-- `fetch_stock_data(symbol)` (app.py lines 41-60): fetch one day of history
from the provider (an exception becomes a 500 pair, an empty frame a 404
pair), build `{symbol, latest_price, timestamp}` from the last close, upsert
it into `stocks_collection`, and return it. -/
def fetch_stock_data (provider : String → ProviderResult) (now : Nat)
    (symbol : String) (store : List PriceRecord) : FetchOut × List PriceRecord :=
  match provider symbol with
  | .exn m => (.err m, store)
  | .ok closes =>
    match closes.getLast? with
    | none => (.notFound "Stock data not found", store)
    | some p =>
      let data : PriceRecord := { symbol := symbol, latest_price := p, timestamp := now }
      (.ok data, upsert store data)

/-! ## Request Gate (StockMarketData, the protected route) -/

/-- Response of `StockMarketData.get`: one of the three 401 auth failures, or
the pair `(fetch_stock_data(symbol), 200)` returned on line 117 — note the
fetch result, error pair included, is wrapped with status 200. -/
inductive StockOut where
  | missingToken
  | expiredToken
  | invalidToken
  | payload (v : FetchOut) (status : Nat)
deriving Repr, DecidableEq

/-- HTTP status of each `StockMarketData.get` branch (app.py lines 108, 113,
115, 117). -/
def StockOut.status : StockOut → Nat
  | .missingToken => 401
  | .expiredToken => 401
  | .invalidToken => 401
  | .payload _ s => s

/-- Body message of the auth-failure branches of `StockMarketData.get`. -/
def StockOut.message : StockOut → String
  | .missingToken => "Token is missing"
  | .expiredToken => "Token has expired"
  | .invalidToken => "Token is invalid"
  | .payload _ _ => ""

/-- `StockMarketData.get` (app.py lines 104-117): no `Authorization` header →
401 missing; `jwt.decode` raising expired/invalid → 401 of that kind; else
return `fetch_stock_data(symbol), 200`. -/
def StockMarketData.get (sign : String → Nat → List Nat)
    (provider : String → ProviderResult) (now : Nat) (token : Option Token)
    (symbol : String) (store : List PriceRecord) : StockOut × List PriceRecord :=
  match token with
  | none => (.missingToken, store)
  | some t =>
    match validate sign t now with
    | .Expired => (.expiredToken, store)
    | .Malformed => (.invalidToken, store)
    | .Valid _ =>
      let res := fetch_stock_data provider now symbol store
      (.payload res.1 200, res.2)

/-! ## Historical Market Data endpoint -/

/-- One row of the historical frame as serialized on app.py lines 153-162. -/
structure Bar where
  date : String
  Open : ℚ
  High : ℚ
  Low : ℚ
  Close : ℚ
  Volume : ℚ
deriving Repr, DecidableEq

/-- Outcome of `yf.Ticker(symbol).history(start=..., end=...)`. -/
inductive HistProviderResult where
  | ok (bars : List Bar)
  | exn (msg : String)
deriving Repr, DecidableEq

/-- Response of `HistoricalMarketData.get`; `crash` is an exception escaping
the handler (there is no try/except in this handler), surfaced by the
framework as an internal server error. -/
inductive HistOut where
  | missingParams
  | notFound
  | bars (rows : List Bar)
  | crash (msg : String)
deriving Repr, DecidableEq

/-- HTTP status of each `HistoricalMarketData.get` outcome (app.py lines 145,
151, 164; an uncaught exception is a framework 500). -/
def HistOut.status : HistOut → Nat
  | .missingParams => 400
  | .notFound => 404
  | .bars _ => 200
  | .crash _ => 500

/-- `HistoricalMarketData.get` (app.py lines 139-164): `request.args.get`
yields `None` for a missing parameter and `""` for an empty one, both falsy
→ 400; the bound strings are passed to the provider unvalidated; an empty
frame → 404; else the date→OHLCV mapping. -/
def HistoricalMarketData.get (histProvider : String → String → String → HistProviderResult)
    (symbol : String) (startDate endDate : Option String) : HistOut :=
  match startDate, endDate with
  | some s, some e =>
    if s == "" || e == "" then .missingParams
    else
      match histProvider symbol s e with
      | .exn m => .crash m
      | .ok [] => .notFound
      | .ok rows => .bars rows
  | _, _ => .missingParams

/-! ## Signal Engine (AnalyticalInsights) -/

/-- The `recommendation` string computed on app.py lines 180-185. -/
inductive Rec where
  | BUY
  | SELL
  | HOLD
deriving Repr, DecidableEq

/-- `hist["Close"].rolling(window=w).mean().iloc[-1]`: the mean of the last
`w` closes, or NaN (modelled as `none`) when fewer than `w` rows exist. -/
def smaLast (w : Nat) (closes : List ℚ) : Option ℚ :=
  if closes.length < w then none
  else some ((closes.drop (closes.length - w)).sum / (w : ℚ))

/-- Pandas `>` against a possibly-NaN operand: any comparison with NaN is
false. -/
def optGT : Option ℚ → Option ℚ → Bool
  | some a, some b => a > b
  | _, _ => false

/-- Pandas `<` against a possibly-NaN operand: any comparison with NaN is
false. -/
def optLT : Option ℚ → Option ℚ → Bool
  | some a, some b => a < b
  | _, _ => false

/-- Response of `AnalyticalInsights.get`. -/
inductive InsightsOut where
  | recommendation (symbol : String) (verdict : Rec)
  | err (text : String)
deriving Repr, DecidableEq

/-- HTTP status of each `AnalyticalInsights.get` branch (app.py lines 187, 189). -/
def InsightsOut.status : InsightsOut → Nat
  | .recommendation _ _ => 200
  | .err _ => 500

/-- `AnalyticalInsights.get` (app.py lines 168-189), applied to the closes of
the fetched 3-month frame: an empty frame makes `iloc[-1]` raise (caught as a
500); otherwise BUY when `SMA_50 > SMA_200 and latest > SMA_50`, SELL when
`SMA_50 < SMA_200 and latest < SMA_50`, else HOLD — NaN averages compare
false. -/
def AnalyticalInsights.get (symbol : String) (closes : List ℚ) : InsightsOut :=
  match closes.getLast? with
  | none => .err "single positional indexer is out-of-bounds"
  | some latest =>
    let sma50 := smaLast 50 closes
    let sma200 := smaLast 200 closes
    if optGT sma50 sma200 && optGT (some latest) sma50 then .recommendation symbol .BUY
    else if optLT sma50 sma200 && optLT (some latest) sma50 then .recommendation symbol .SELL
    else .recommendation symbol .HOLD

/-- Concrete signing function, a stand-in for HMAC-SHA256 in closed instances. -/
def demoSign : String → Nat → List Nat := fun s n => [s.length + n]

/-- Concrete bcrypt-core stand-in used in closed instances. -/
def demoDigest : String → Nat → Nat := fun s n => s.length * 1000 + n

/-- Concrete bar used in closed instances. -/
def demoBar : Bar :=
  { date := "2024-01-02", Open := 1, High := 2, Low := 1, Close := 2, Volume := 100 }

/-! ## Helper lemmas -/

theorem set_ne_of_ne_getElem {l : List Nat} {i b : Nat} (hi : i < l.length)
    (hb : b ≠ l[i]) : l.set i b ≠ l := by
  intro h
  have h1 : (l.set i b)[i]? = some b := List.getElem?_set_self hi
  rw [h, List.getElem?_eq_getElem hi] at h1
  exact hb (Option.some.inj h1).symm

/-! ## C1 -/

/-- C1: validating a token immediately after `issue(u)` yields `Valid u`; a
token whose issuance lies more than the two-hour window in the past validates
as `Expired`; a token with a byte of its signature flipped validates as
`Malformed`; and `Expired` and `Malformed` are distinct outcomes. -/
theorem C1_token_roundtrip (sign : String → Nat → List Nat) (u : String)
    (t0 later : Nat) (hlate : t0 + tokenValiditySeconds < later)
    (i b : Nat) (hi : i < (sign u (t0 + tokenValiditySeconds)).length)
    (hb : b ≠ (sign u (t0 + tokenValiditySeconds))[i]) :
    validate sign (issue sign u t0) t0 = .Valid u ∧
    validate sign (issue sign u t0) later = .Expired ∧
    validate sign
      { username := u, exp := t0 + tokenValiditySeconds,
        sig := (sign u (t0 + tokenValiditySeconds)).set i b } t0 = .Malformed ∧
    ValidateResult.Expired ≠ ValidateResult.Malformed := by
  refine ⟨?_, ?_, ?_, by simp⟩
  · simp only [validate, issue]
    rw [if_neg (by simp), if_neg (by omega)]
  · simp only [validate, issue]
    rw [if_neg (by simp), if_pos (by omega)]
  · simp [validate, set_ne_of_ne_getElem hi hb]

/-- Witness for C1 at a concrete signing function, username and clock. -/
theorem C1_token_roundtrip_witness :
    (0 + tokenValiditySeconds < 7201) ∧
    (validate demoSign (issue demoSign "alice" 0) 0 = .Valid "alice" ∧
     validate demoSign (issue demoSign "alice" 0) 7201 = .Expired ∧
     validate demoSign
       { username := "alice", exp := 0 + tokenValiditySeconds,
         sig := (demoSign "alice" (0 + tokenValiditySeconds)).set 0 0 } 0 = .Malformed ∧
     ValidateResult.Expired ≠ ValidateResult.Malformed) :=
  ⟨by decide, C1_token_roundtrip demoSign "alice" 0 7201 (by decide) 0 0 (by decide) (by decide)⟩

/-! ## C2 -/

/-- C2: on a store holding no record for `u`, a first registration hashes the
password, appends the pair and answers Created; a second registration of `u`
answers the 400 "User already exists" conflict, writes nothing, and the store
still holds exactly one record for `u` — the first registration's. -/
theorem C2_duplicate_registration (f : String → Nat → Nat) (salt1 salt2 : Nat)
    (u p1 p2 : String) (store : List UserRecord)
    (hu : ∀ r ∈ store, r.username ≠ u) :
    (Register.post f salt1 ⟨some u, some p1⟩ store).1 = .created ∧
    (Register.post f salt1 ⟨some u, some p1⟩ store).2
        = store ++ [{ username := u, password := hashpw f p1 salt1 }] ∧
    ((Register.post f salt1 ⟨some u, some p1⟩ store).2.filter fun r => r.username == u)
        = [{ username := u, password := hashpw f p1 salt1 }] ∧
    (Register.post f salt2 ⟨some u, some p2⟩
        (Register.post f salt1 ⟨some u, some p1⟩ store).2).1 = .conflict ∧
    RegisterOut.conflict.status = 400 ∧
    RegisterOut.conflict.message = "User already exists" ∧
    (Register.post f salt2 ⟨some u, some p2⟩
        (Register.post f salt1 ⟨some u, some p1⟩ store).2).2
        = (Register.post f salt1 ⟨some u, some p1⟩ store).2 := by
  have hany : (store.any fun r => r.username == u) = false := by
    rw [List.any_eq_false]
    intro r hr
    simpa using hu r hr
  have hfil : store.filter (fun r => r.username == u) = [] := by
    rw [List.filter_eq_nil_iff]
    intro r hr
    simpa using hu r hr
  have hstep : Register.post f salt1 ⟨some u, some p1⟩ store
      = (.created, store ++ [{ username := u, password := hashpw f p1 salt1 }]) := by
    simp [Register.post, hany]
  have hstep2 : Register.post f salt2 ⟨some u, some p2⟩
      (store ++ [{ username := u, password := hashpw f p1 salt1 }])
      = (.conflict, store ++ [{ username := u, password := hashpw f p1 salt1 }]) := by
    simp [Register.post, List.any_append]
  refine ⟨by rw [hstep], by rw [hstep], ?_, by rw [hstep, hstep2], rfl, rfl,
    by rw [hstep, hstep2]⟩
  rw [hstep]
  simp [List.filter_append, hfil]

/-- Witness for C2 on the empty store. -/
theorem C2_duplicate_registration_witness :
    (∀ r ∈ ([] : List UserRecord), r.username ≠ "alice") ∧
    ((Register.post demoDigest 1 ⟨some "alice", some "pw1"⟩ []).1 = .created ∧
     (Register.post demoDigest 1 ⟨some "alice", some "pw1"⟩ []).2
        = [] ++ [{ username := "alice", password := hashpw demoDigest "pw1" 1 }] ∧
     ((Register.post demoDigest 1 ⟨some "alice", some "pw1"⟩ []).2.filter
        fun r => r.username == "alice")
        = [{ username := "alice", password := hashpw demoDigest "pw1" 1 }] ∧
     (Register.post demoDigest 2 ⟨some "alice", some "pw2"⟩
        (Register.post demoDigest 1 ⟨some "alice", some "pw1"⟩ []).2).1 = .conflict ∧
     RegisterOut.conflict.status = 400 ∧
     RegisterOut.conflict.message = "User already exists" ∧
     (Register.post demoDigest 2 ⟨some "alice", some "pw2"⟩
        (Register.post demoDigest 1 ⟨some "alice", some "pw1"⟩ []).2).2
        = (Register.post demoDigest 1 ⟨some "alice", some "pw1"⟩ []).2) :=
  ⟨by simp, C2_duplicate_registration demoDigest 1 2 "alice" "pw1" "pw2" [] (by simp)⟩

/-! ## C3 -/

/-- C3: after registering `(u, p)`, logging in with `(u, p)` succeeds with a
token; logging in with a wrong password, and logging in with a username
absent from the store, both answer the one shared `invalidCredentials`
outcome — the same 401 status and the same "Invalid credentials" message. -/
theorem C3_login_no_enumeration (f : String → Nat → Nat)
    (sign : String → Nat → List Nat) (salt : Nat)
    (u p wrongp otherU : String) (store : List UserRecord) (now : Nat)
    (hu : ∀ r ∈ store, r.username ≠ u)
    (hwrong : f wrongp salt ≠ f p salt)
    (hother : ∀ r ∈ store, r.username ≠ otherU) (hne : otherU ≠ u) :
    Login.post f sign ⟨some u, some p⟩
        (Register.post f salt ⟨some u, some p⟩ store).2 now
        = .token (issue sign u now) ∧
    Login.post f sign ⟨some u, some wrongp⟩
        (Register.post f salt ⟨some u, some p⟩ store).2 now
        = .invalidCredentials ∧
    Login.post f sign ⟨some otherU, some wrongp⟩
        (Register.post f salt ⟨some u, some p⟩ store).2 now
        = .invalidCredentials ∧
    LoginOut.invalidCredentials.status = 401 ∧
    LoginOut.invalidCredentials.message = "Invalid credentials" := by
  have hany : (store.any fun r => r.username == u) = false := by
    rw [List.any_eq_false]
    intro r hr
    simpa using hu r hr
  have hstore : (Register.post f salt ⟨some u, some p⟩ store).2
      = store ++ [{ username := u, password := hashpw f p salt }] := by
    simp [Register.post, hany]
  have h1u : (store.find? fun r => r.username == u) = none := by
    rw [List.find?_eq_none]
    intro r hr
    simpa using hu r hr
  have h1o : (store.find? fun r => r.username == otherU) = none := by
    rw [List.find?_eq_none]
    intro r hr
    simpa using hother r hr
  have hneu : u ≠ otherU := fun h => hne h.symm
  refine ⟨?_, ?_, ?_, rfl, rfl⟩
  · rw [hstore]
    simp [Login.post, h1u, checkpw, hashpw]
  · rw [hstore]
    simp [Login.post, h1u, checkpw, hashpw, hwrong]
  · rw [hstore]
    simp [Login.post, h1o, checkpw, hashpw, hneu]

/-- Witness for C3 at concrete credentials on the empty store. -/
theorem C3_login_no_enumeration_witness :
    ((∀ r ∈ ([] : List UserRecord), r.username ≠ "alice") ∧
     demoDigest "wrong" 3 ≠ demoDigest "pw" 3 ∧
     (∀ r ∈ ([] : List UserRecord), r.username ≠ "bob") ∧ "bob" ≠ "alice") ∧
    (Login.post demoDigest demoSign ⟨some "alice", some "pw"⟩
        (Register.post demoDigest 3 ⟨some "alice", some "pw"⟩ []).2 5
        = .token (issue demoSign "alice" 5) ∧
     Login.post demoDigest demoSign ⟨some "alice", some "wrong"⟩
        (Register.post demoDigest 3 ⟨some "alice", some "pw"⟩ []).2 5
        = .invalidCredentials ∧
     Login.post demoDigest demoSign ⟨some "bob", some "wrong"⟩
        (Register.post demoDigest 3 ⟨some "alice", some "pw"⟩ []).2 5
        = .invalidCredentials ∧
     LoginOut.invalidCredentials.status = 401 ∧
     LoginOut.invalidCredentials.message = "Invalid credentials") :=
  ⟨⟨by simp, by decide, by simp, by decide⟩,
   C3_login_no_enumeration demoDigest demoSign 3 "alice" "pw" "wrong" "bob" [] 5
     (by simp) (by decide) (by simp) (by decide)⟩

/-! ## C4 -/

theorem insights_eq (symbol : String) (closes : List ℚ) (latest : ℚ)
    (hl : closes.getLast? = some latest) :
    AnalyticalInsights.get symbol closes =
      if optGT (smaLast 50 closes) (smaLast 200 closes)
          && optGT (some latest) (smaLast 50 closes) then
        .recommendation symbol .BUY
      else if optLT (smaLast 50 closes) (smaLast 200 closes)
          && optLT (some latest) (smaLast 50 closes) then
        .recommendation symbol .SELL
      else .recommendation symbol .HOLD := by
  unfold AnalyticalInsights.get
  rw [hl]

/-- C4: on a history of at least 200 bars both averages are defined, and the
verdict is BUY exactly when SMA50 > SMA200 and the latest close > SMA50, SELL
exactly when SMA50 < SMA200 and the latest close < SMA50, and HOLD in every
other case, the averages being the means of the trailing 50 and 200 closes. -/
theorem C4_signal_decision_rule (symbol : String) (closes : List ℚ)
    (h : 200 ≤ closes.length) (latest : ℚ) (hl : closes.getLast? = some latest) :
    (AnalyticalInsights.get symbol closes = .recommendation symbol .BUY ↔
      (closes.drop (closes.length - 200)).sum / (200 : ℚ)
          < (closes.drop (closes.length - 50)).sum / (50 : ℚ) ∧
      (closes.drop (closes.length - 50)).sum / (50 : ℚ) < latest) ∧
    (AnalyticalInsights.get symbol closes = .recommendation symbol .SELL ↔
      (closes.drop (closes.length - 50)).sum / (50 : ℚ)
          < (closes.drop (closes.length - 200)).sum / (200 : ℚ) ∧
      latest < (closes.drop (closes.length - 50)).sum / (50 : ℚ)) ∧
    (AnalyticalInsights.get symbol closes = .recommendation symbol .HOLD ↔
      (¬((closes.drop (closes.length - 200)).sum / (200 : ℚ)
            < (closes.drop (closes.length - 50)).sum / (50 : ℚ) ∧
         (closes.drop (closes.length - 50)).sum / (50 : ℚ) < latest) ∧
       ¬((closes.drop (closes.length - 50)).sum / (50 : ℚ)
            < (closes.drop (closes.length - 200)).sum / (200 : ℚ) ∧
         latest < (closes.drop (closes.length - 50)).sum / (50 : ℚ)))) := by
  have h50 : smaLast 50 closes
      = some ((closes.drop (closes.length - 50)).sum / (50 : ℚ)) := by
    unfold smaLast
    rw [if_neg (by omega)]
    norm_num
  have h200 : smaLast 200 closes
      = some ((closes.drop (closes.length - 200)).sum / (200 : ℚ)) := by
    unfold smaLast
    rw [if_neg (by omega)]
    norm_num
  rw [insights_eq symbol closes latest hl, h50, h200]
  simp only [optGT, optLT]
  by_cases hP : (closes.drop (closes.length - 200)).sum / (200 : ℚ)
        < (closes.drop (closes.length - 50)).sum / (50 : ℚ) ∧
      (closes.drop (closes.length - 50)).sum / (50 : ℚ) < latest <;>
    by_cases hQ : (closes.drop (closes.length - 50)).sum / (50 : ℚ)
        < (closes.drop (closes.length - 200)).sum / (200 : ℚ) ∧
      latest < (closes.drop (closes.length - 50)).sum / (50 : ℚ)
  · exact absurd hQ.1 (lt_asymm hP.1)
  · simp [hP.1, hP.2, hQ]
  · simp [hP, hQ.1, hQ.2]
  · simp [hP, hQ]

set_option maxRecDepth 8000 in
/-- Witness for C4 on a flat 200-bar history (all closes 1), which lands in
the HOLD case. -/
theorem C4_signal_decision_rule_witness :
    (200 ≤ (List.replicate 200 (1 : ℚ)).length ∧
     (List.replicate 200 (1 : ℚ)).getLast? = some 1) ∧
    ((AnalyticalInsights.get "AAPL" (List.replicate 200 (1 : ℚ))
          = .recommendation "AAPL" .BUY ↔
        ((List.replicate 200 (1 : ℚ)).drop ((List.replicate 200 (1 : ℚ)).length - 200)).sum
            / (200 : ℚ)
          < ((List.replicate 200 (1 : ℚ)).drop
              ((List.replicate 200 (1 : ℚ)).length - 50)).sum / (50 : ℚ) ∧
        ((List.replicate 200 (1 : ℚ)).drop ((List.replicate 200 (1 : ℚ)).length - 50)).sum
            / (50 : ℚ) < 1) ∧
     (AnalyticalInsights.get "AAPL" (List.replicate 200 (1 : ℚ))
          = .recommendation "AAPL" .SELL ↔
        ((List.replicate 200 (1 : ℚ)).drop ((List.replicate 200 (1 : ℚ)).length - 50)).sum
            / (50 : ℚ)
          < ((List.replicate 200 (1 : ℚ)).drop
              ((List.replicate 200 (1 : ℚ)).length - 200)).sum / (200 : ℚ) ∧
        1 < ((List.replicate 200 (1 : ℚ)).drop
              ((List.replicate 200 (1 : ℚ)).length - 50)).sum / (50 : ℚ)) ∧
     (AnalyticalInsights.get "AAPL" (List.replicate 200 (1 : ℚ))
          = .recommendation "AAPL" .HOLD ↔
        (¬(((List.replicate 200 (1 : ℚ)).drop
              ((List.replicate 200 (1 : ℚ)).length - 200)).sum / (200 : ℚ)
            < ((List.replicate 200 (1 : ℚ)).drop
                ((List.replicate 200 (1 : ℚ)).length - 50)).sum / (50 : ℚ) ∧
           ((List.replicate 200 (1 : ℚ)).drop
              ((List.replicate 200 (1 : ℚ)).length - 50)).sum / (50 : ℚ) < 1) ∧
         ¬(((List.replicate 200 (1 : ℚ)).drop
              ((List.replicate 200 (1 : ℚ)).length - 50)).sum / (50 : ℚ)
            < ((List.replicate 200 (1 : ℚ)).drop
                ((List.replicate 200 (1 : ℚ)).length - 200)).sum / (200 : ℚ) ∧
           1 < ((List.replicate 200 (1 : ℚ)).drop
                ((List.replicate 200 (1 : ℚ)).length - 50)).sum / (50 : ℚ))))) :=
  ⟨⟨by simp, by rfl⟩,
   C4_signal_decision_rule "AAPL" (List.replicate 200 (1 : ℚ)) (by simp) 1 (by rfl)⟩

/-! ## C5 -/

/-- C5: evaluation of the engine at a 100-bar history: the 200-bar average is
undefined (NaN, comparing false) and the handler answers a plain HOLD
recommendation with status 200 — no separate insufficient-history outcome
exists in the code. -/
theorem C5_short_history_holds :
    AnalyticalInsights.get "AAPL" (List.replicate 100 (1 : ℚ))
        = .recommendation "AAPL" .HOLD ∧
    (InsightsOut.recommendation "AAPL" Rec.HOLD).status = 200 := by
  exact ⟨rfl, rfl⟩

/-! ## C6 -/

theorem mem_upsert {store : List PriceRecord} {r b : PriceRecord}
    (h : b ∈ upsert store r) : b = r ∨ b ∈ store := by
  induction store with
  | nil =>
    simp only [upsert, List.mem_singleton] at h
    exact .inl h
  | cons x xs ih =>
    simp only [upsert] at h
    split at h
    · rcases List.mem_cons.mp h with h | h
      · exact .inl h
      · exact .inr (List.mem_cons_of_mem _ h)
    · rcases List.mem_cons.mp h with h | h
      · exact .inr (h ▸ List.mem_cons_self x xs)
      · rcases ih h with h2 | h2
        · exact .inl h2
        · exact .inr (List.mem_cons_of_mem _ h2)

theorem pairwise_upsert {store : List PriceRecord} {r : PriceRecord}
    (h : store.Pairwise fun a b => a.symbol ≠ b.symbol) :
    (upsert store r).Pairwise fun a b => a.symbol ≠ b.symbol := by
  induction store with
  | nil => simp [upsert]
  | cons x xs ih =>
    rw [List.pairwise_cons] at h
    simp only [upsert]
    split
    · rename_i hx
      rw [List.pairwise_cons]
      refine ⟨?_, h.2⟩
      intro b hb
      have hxr : x.symbol = r.symbol := by simpa using hx
      exact fun hc => h.1 b hb (hxr.trans hc)
    · rename_i hx
      rw [List.pairwise_cons]
      constructor
      · intro b hb
        rcases mem_upsert hb with h2 | h2
        · subst h2
          simpa using hx
        · exact h.1 b h2
      · exact ih h.2

theorem filter_upsert_self {store : List PriceRecord} {r : PriceRecord}
    (h : store.Pairwise fun a b => a.symbol ≠ b.symbol) :
    (upsert store r).filter (fun x => x.symbol == r.symbol) = [r] := by
  induction store with
  | nil => simp [upsert]
  | cons x xs ih =>
    rw [List.pairwise_cons] at h
    simp only [upsert]
    split
    · rename_i hx
      have hxr : x.symbol = r.symbol := by simpa using hx
      rw [List.filter_cons_of_pos (by simp)]
      have hnil : xs.filter (fun y => y.symbol == r.symbol) = [] := by
        rw [List.filter_eq_nil_iff]
        intro a ha
        simp only [beq_iff_eq]
        exact fun hc => h.1 a ha (hxr.trans hc.symm)
      rw [hnil]
    · rename_i hx
      rw [List.filter_cons_of_neg (by simpa using hx)]
      exact ih h.2

/-- C6: a successful latest-price call is a fresh provider fetch — its result
is the record built from the provider's last close and the current instant,
for any prior cache contents; the store is updated by upsert with that
record; and a store with at most one record per symbol keeps that shape, now
holding exactly the new record for this symbol. -/
theorem C6_fresh_fetch_upsert (provider : String → ProviderResult) (now : Nat)
    (symbol : String) (store : List PriceRecord) (closes : List ℚ) (latest : ℚ)
    (hp : provider symbol = .ok closes) (hl : closes.getLast? = some latest)
    (hU : store.Pairwise fun a b => a.symbol ≠ b.symbol) :
    fetch_stock_data provider now symbol store
        = (.ok { symbol := symbol, latest_price := latest, timestamp := now },
           upsert store { symbol := symbol, latest_price := latest, timestamp := now }) ∧
    (∀ cache : List PriceRecord, (fetch_stock_data provider now symbol cache).1
        = .ok { symbol := symbol, latest_price := latest, timestamp := now }) ∧
    (upsert store { symbol := symbol, latest_price := latest, timestamp := now }).Pairwise
        (fun a b => a.symbol ≠ b.symbol) ∧
    ((upsert store { symbol := symbol, latest_price := latest, timestamp := now }).filter
        fun x => x.symbol == symbol)
      = [{ symbol := symbol, latest_price := latest, timestamp := now }] := by
  have hrun : ∀ cache, fetch_stock_data provider now symbol cache
      = (.ok { symbol := symbol, latest_price := latest, timestamp := now },
         upsert cache { symbol := symbol, latest_price := latest, timestamp := now }) := by
    intro cache
    simp only [fetch_stock_data, hp, hl]
  refine ⟨hrun store, fun c => by rw [hrun c], pairwise_upsert hU, ?_⟩
  exact filter_upsert_self
    (r := { symbol := symbol, latest_price := latest, timestamp := now }) hU

/-- Witness for C6 with a one-bar provider on the empty store. -/
theorem C6_fresh_fetch_upsert_witness :
    ((fun _ : String => ProviderResult.ok [(5 : ℚ)]) "AAPL" = .ok [(5 : ℚ)] ∧
     ([(5 : ℚ)]).getLast? = some 5 ∧
     ([] : List PriceRecord).Pairwise fun a b => a.symbol ≠ b.symbol) ∧
    (fetch_stock_data (fun _ => ProviderResult.ok [(5 : ℚ)]) 0 "AAPL" []
        = (.ok { symbol := "AAPL", latest_price := 5, timestamp := 0 },
           upsert [] { symbol := "AAPL", latest_price := 5, timestamp := 0 }) ∧
     (∀ cache : List PriceRecord,
        (fetch_stock_data (fun _ => ProviderResult.ok [(5 : ℚ)]) 0 "AAPL" cache).1
          = .ok { symbol := "AAPL", latest_price := 5, timestamp := 0 }) ∧
     (upsert [] { symbol := "AAPL", latest_price := 5, timestamp := 0 }).Pairwise
        (fun a b => a.symbol ≠ b.symbol) ∧
     ((upsert [] { symbol := "AAPL", latest_price := 5, timestamp := 0 }).filter
        fun x => x.symbol == "AAPL")
       = [{ symbol := "AAPL", latest_price := 5, timestamp := 0 }]) :=
  ⟨⟨rfl, rfl, by simp⟩,
   C6_fresh_fetch_upsert (fun _ => ProviderResult.ok [(5 : ℚ)]) 0 "AAPL" []
     [(5 : ℚ)] 5 rfl rfl (by simp)⟩

/-! ## C7 -/

/-- C7: evaluation of the protected endpoint at a failed fetch behind a valid
token: `fetch_stock_data` itself produces the typed 404 failure, but the
route wraps it with status 200 (app.py line 117), so the endpoint reports
success for a failed fetch. -/
theorem C7_failed_fetch_wrapped_in_200 :
    (StockMarketData.get demoSign (fun _ => ProviderResult.ok []) 0
        (some (issue demoSign "alice" 0)) "AAPL" []).1
      = .payload (.notFound "Stock data not found") 200 ∧
    (StockOut.payload (.notFound "Stock data not found") 200).status = 200 ∧
    (FetchOut.notFound "Stock data not found").errStatus = some 404 := by
  exact ⟨rfl, rfl, rfl⟩

/-! ## C8 -/

/-- C8: the request gate on the latest-price route: an absent Authorization
header answers the 401 missing-token failure; a token validating Expired or
Malformed answers the 401 failure of the same kind, leaving the store
untouched and independent of the provider; only a Valid token invokes the
wrapped fetch. -/
theorem C8_request_gate (sign : String → Nat → List Nat)
    (provider : String → ProviderResult) (now : Nat) (symbol : String)
    (store : List PriceRecord) (te tm tv : Token) (u : String)
    (he : validate sign te now = .Expired)
    (hm : validate sign tm now = .Malformed)
    (hv : validate sign tv now = .Valid u) :
    StockMarketData.get sign provider now none symbol store = (.missingToken, store) ∧
    StockMarketData.get sign provider now (some te) symbol store = (.expiredToken, store) ∧
    StockMarketData.get sign provider now (some tm) symbol store = (.invalidToken, store) ∧
    (∀ p1 p2 : String → ProviderResult,
        StockMarketData.get sign p1 now (some te) symbol store
          = StockMarketData.get sign p2 now (some te) symbol store ∧
        StockMarketData.get sign p1 now (some tm) symbol store
          = StockMarketData.get sign p2 now (some tm) symbol store ∧
        StockMarketData.get sign p1 now none symbol store
          = StockMarketData.get sign p2 now none symbol store) ∧
    StockMarketData.get sign provider now (some tv) symbol store
        = (.payload (fetch_stock_data provider now symbol store).1 200,
           (fetch_stock_data provider now symbol store).2) ∧
    StockOut.missingToken.status = 401 ∧ StockOut.expiredToken.status = 401 ∧
    StockOut.invalidToken.status = 401 ∧
    StockOut.missingToken.message = "Token is missing" ∧
    StockOut.expiredToken.message = "Token has expired" ∧
    StockOut.invalidToken.message = "Token is invalid" := by
  have hte : ∀ p : String → ProviderResult,
      StockMarketData.get sign p now (some te) symbol store = (.expiredToken, store) := by
    intro p
    simp only [StockMarketData.get, he]
  have htm : ∀ p : String → ProviderResult,
      StockMarketData.get sign p now (some tm) symbol store = (.invalidToken, store) := by
    intro p
    simp only [StockMarketData.get, hm]
  refine ⟨rfl, hte provider, htm provider,
    fun p1 p2 => ⟨(hte p1).trans (hte p2).symm, (htm p1).trans (htm p2).symm, rfl⟩,
    ?_, rfl, rfl, rfl, rfl, rfl, rfl⟩
  simp only [StockMarketData.get, hv]

/-- Witness for C8 with concrete expired, tampered and valid tokens at one
clock instant. -/
theorem C8_request_gate_witness :
    (validate demoSign (issue demoSign "al" 0) 7201 = .Expired ∧
     validate demoSign { username := "al", exp := 7200, sig := [] } 7201 = .Malformed ∧
     validate demoSign (issue demoSign "bob" 7201) 7201 = .Valid "bob") ∧
    (StockMarketData.get demoSign (fun _ => ProviderResult.ok []) 7201 none "AAPL" []
        = (.missingToken, []) ∧
     StockMarketData.get demoSign (fun _ => ProviderResult.ok []) 7201
        (some (issue demoSign "al" 0)) "AAPL" [] = (.expiredToken, []) ∧
     StockMarketData.get demoSign (fun _ => ProviderResult.ok []) 7201
        (some { username := "al", exp := 7200, sig := [] }) "AAPL" []
        = (.invalidToken, []) ∧
     (∀ p1 p2 : String → ProviderResult,
        StockMarketData.get demoSign p1 7201 (some (issue demoSign "al" 0)) "AAPL" []
          = StockMarketData.get demoSign p2 7201 (some (issue demoSign "al" 0)) "AAPL" [] ∧
        StockMarketData.get demoSign p1 7201
            (some { username := "al", exp := 7200, sig := [] }) "AAPL" []
          = StockMarketData.get demoSign p2 7201
            (some { username := "al", exp := 7200, sig := [] }) "AAPL" [] ∧
        StockMarketData.get demoSign p1 7201 none "AAPL" []
          = StockMarketData.get demoSign p2 7201 none "AAPL" []) ∧
     StockMarketData.get demoSign (fun _ => ProviderResult.ok []) 7201
        (some (issue demoSign "bob" 7201)) "AAPL" []
        = (.payload (fetch_stock_data (fun _ => ProviderResult.ok []) 7201 "AAPL" []).1 200,
           (fetch_stock_data (fun _ => ProviderResult.ok []) 7201 "AAPL" []).2) ∧
     StockOut.missingToken.status = 401 ∧ StockOut.expiredToken.status = 401 ∧
     StockOut.invalidToken.status = 401 ∧
     StockOut.missingToken.message = "Token is missing" ∧
     StockOut.expiredToken.message = "Token has expired" ∧
     StockOut.invalidToken.message = "Token is invalid") :=
  ⟨⟨by decide, by decide, by decide⟩,
   C8_request_gate demoSign (fun _ => ProviderResult.ok []) 7201 "AAPL" []
     (issue demoSign "al" 0) { username := "al", exp := 7200, sig := [] }
     (issue demoSign "bob" 7201) "bob" (by decide) (by decide) (by decide)⟩

/-! ## C9 -/

/-- C9 counterexample: a present-but-unparsable start bound is not answered
with 400 — the handler never validates the bound; it reaches the provider,
whose parse failure escapes the handler (status 500), contradicting the
claim that an unparsable bound fails with InvalidRange (400). -/
theorem C9_unparsable_bound_not_400 :
    HistoricalMarketData.get
        (fun _ s _ =>
          if s == "banana" then .exn "unconverted data remains: banana" else .ok [])
        "AAPL" (some "banana") (some "2024-01-10")
      = .crash "unconverted data remains: banana" ∧
    (HistOut.crash "unconverted data remains: banana").status = 500 ∧
    (500 : Nat) ≠ 400 := by
  exact ⟨rfl, rfl, by decide⟩

/-- C9 (amended): a missing or empty bound answers the 400
missing-parameters failure; present non-empty bounds are forwarded to the
provider unvalidated; an empty provider range answers 404; a non-empty range
is returned as the bar mapping. -/
theorem C9_history_range (histProvider : String → String → String → HistProviderResult)
    (symbol s e : String) (rows : List Bar) (hs : s ≠ "") (he : e ≠ "") :
    (∀ d : Option String,
        HistoricalMarketData.get histProvider symbol none d = .missingParams ∧
        HistoricalMarketData.get histProvider symbol d none = .missingParams) ∧
    HistoricalMarketData.get histProvider symbol (some "") (some e) = .missingParams ∧
    HistoricalMarketData.get histProvider symbol (some s) (some "") = .missingParams ∧
    (histProvider symbol s e = .ok [] →
        HistoricalMarketData.get histProvider symbol (some s) (some e) = .notFound) ∧
    (histProvider symbol s e = .ok rows → rows ≠ [] →
        HistoricalMarketData.get histProvider symbol (some s) (some e) = .bars rows) ∧
    HistOut.missingParams.status = 400 ∧ HistOut.notFound.status = 404 := by
  have hcond : (s == "" || e == "") = false := by simp [hs, he]
  refine ⟨?_, by rfl, ?_, ?_, ?_, rfl, rfl⟩
  · intro d
    exact ⟨by cases d <;> rfl, by cases d <;> rfl⟩
  · simp [HistoricalMarketData.get]
  · intro h0
    simp [HistoricalMarketData.get, hcond, h0]
  · intro h0 hne
    simp only [HistoricalMarketData.get, hcond, Bool.false_eq_true, if_false, h0]

/-- Witness for C9 (amended) at concrete bounds and a one-bar provider. -/
theorem C9_history_range_witness :
    ("2024-01-01" ≠ "" ∧ "2024-01-10" ≠ "") ∧
    ((∀ d : Option String,
        HistoricalMarketData.get (fun _ _ _ => HistProviderResult.ok [demoBar])
            "AAPL" none d = .missingParams ∧
        HistoricalMarketData.get (fun _ _ _ => HistProviderResult.ok [demoBar])
            "AAPL" d none = .missingParams) ∧
     HistoricalMarketData.get (fun _ _ _ => HistProviderResult.ok [demoBar])
        "AAPL" (some "") (some "2024-01-10") = .missingParams ∧
     HistoricalMarketData.get (fun _ _ _ => HistProviderResult.ok [demoBar])
        "AAPL" (some "2024-01-01") (some "") = .missingParams ∧
     ((fun _ _ _ => HistProviderResult.ok [demoBar]) "AAPL" "2024-01-01" "2024-01-10"
          = .ok [] →
        HistoricalMarketData.get (fun _ _ _ => HistProviderResult.ok [demoBar])
            "AAPL" (some "2024-01-01") (some "2024-01-10") = .notFound) ∧
     ((fun _ _ _ => HistProviderResult.ok [demoBar]) "AAPL" "2024-01-01" "2024-01-10"
          = .ok [demoBar] → [demoBar] ≠ [] →
        HistoricalMarketData.get (fun _ _ _ => HistProviderResult.ok [demoBar])
            "AAPL" (some "2024-01-01") (some "2024-01-10") = .bars [demoBar]) ∧
     HistOut.missingParams.status = 400 ∧ HistOut.notFound.status = 404) :=
  ⟨⟨by decide, by decide⟩,
   C9_history_range (fun _ _ _ => HistProviderResult.ok [demoBar]) "AAPL"
     "2024-01-01" "2024-01-10" [demoBar] (by decide) (by decide)⟩

/-! ## C10 -/

/-- C10: a register or login body lacking the username or the password key
answers a 500 carrying the raised `KeyError` text (the quoted key name)
rather than a 400, and the register path writes nothing to the store. -/
theorem C10_missing_field_500 (f : String → Nat → Nat)
    (sign : String → Nat → List Nat) (salt now : Nat)
    (store : List UserRecord) (u : String) (pw : Option String) :
    Register.post f salt ⟨none, pw⟩ store = (.err (keyErrorText "username"), store) ∧
    Register.post f salt ⟨some u, none⟩ store = (.err (keyErrorText "password"), store) ∧
    (RegisterOut.err (keyErrorText "username")).status = 500 ∧
    (RegisterOut.err (keyErrorText "password")).status = 500 ∧
    Login.post f sign ⟨none, pw⟩ store now = .err (keyErrorText "username") ∧
    Login.post f sign ⟨some u, none⟩ store now = .err (keyErrorText "password") ∧
    (LoginOut.err (keyErrorText "username")).status = 500 ∧
    (LoginOut.err (keyErrorText "password")).status = 500 ∧
    keyErrorText "username" = "'username'" ∧
    keyErrorText "password" = "'password'" := by
  exact ⟨rfl, rfl, rfl, rfl, rfl, rfl, rfl, rfl, rfl, rfl⟩

end StockApp
